import Mathlib

/-!
# Verification of the tach pytest plugin core (`python/tach/pytest_plugin.py`)

Shallow embedding of the test-impact selection engine: configuration
(`pytest_configure`), collection-time filtering (`pytest_collect_file`),
item-level filtering (`pytest_collection_modifyitems`), the duration ledger
(`_get_cached_durations` / `_save_durations` / `_record_test_durations` /
`_estimate_skipped_duration`), the post-run validation pass
(`pytest_terminal_summary`) and the reporter
(`pytest_report_collectionfinish`, `_format_paths`).

Modelling conventions:
* File-system paths are their string representations.  `Path.resolve()` is an
  ambient function `resolveFP : String → String` passed explicitly (the
  embedding never touches a real file system).
* Python `float` durations are embedded as `ℚ` (the arithmetic used by the
  code is plain addition and comparison with 0; no claim depends on binary
  rounding).
* Python sets are embedded as lists; membership and emptiness are what the
  claims use, and insertion is modelled as append.  Iteration order of a set
  becomes the list order.
* The Impact Oracle (`handler.should_remove_items`) is an opaque external
  decision function, passed as `oracle : String → Bool`.
* ANSI styling (`_green`, `_dim`, …, produced through `rich`) is a
  presentation concern: the styling wrappers are embedded as the identity on
  text, so a "styled line" is the plain line.
-/

namespace TachPlugin

/-- Modelled from the spec: `TachPytestPluginHandler` comes from
`tach.extension` (the compiled extension is not part of the Python sources).
Per the Impact Oracle interface of the spec it is "backed by immutable
`changed_file_set` and `project_root`/`project_config` supplied at
construction", with path identity meaning absolute-path comparison; the
plugin accordingly tests `str(resolved_path)` membership against
`all_affected_modules`, so the handler exposes that set as the resolved
path strings of the changed files.  `mark_removed(file_path)` /
`remove_test_path` appends a path to `removed_test_paths`, and
`num_removed_items` / `tests_ran_to_completion` are plain mutable fields.
The oracle itself (`should_remove_items`) is kept outside the structure as
an opaque function argument. -/
structure Handler where
  all_affected_modules : List String
  removed_test_paths : List String
  num_removed_items : Nat
  tests_ran_to_completion : Bool
deriving DecidableEq, Repr

/-- `TachPluginState` (the dataclass stored in the pytest stash). -/
structure TachPluginState where
  handler : Handler
  skip_enabled : Bool
  verbose : Bool
  base : String
  head : Option String
  would_skip_paths : List String
deriving DecidableEq, Repr

/-! ## Configuration phase (`pytest_configure`) -/

/-- A single-quote character (codepoint 39), as a string. -/
def squote : String := (Char.ofNat 39).toString

/-- The `pytest.UsageError` message raised when changed-file resolution fails
while skipping was explicitly requested (lines 252–256 of the plugin): the
base name appears quoted in the text, followed by a remediation command. -/
def usageErrorMessage (base : String) : String :=
  ("[tach] Could not determine changed files (base=" ++ squote ++ base ++
    squote ++ "). ") ++
  "The base branch may not exist in this checkout. " ++
  ("In CI, try: " ++ ("git fetch origin " ++ base ++ ":" ++ base))

/-- `pytest_configure`.  Ambient inputs that the hook obtains from its
environment are passed explicitly: `projectConfig` (result of
`parse_project_config`, `none` = no tach config), the four CLI options,
`defaultBranch` (result of `_get_default_branch`, an external git query),
`resolveFP` (`Path.resolve`), and `changedFilesResult` (the outcome of
`get_changed_files`, `.error` = the call raised).  The result is
`.error msg` for a raised `pytest.UsageError`, `.ok none` for a silent
return with no state stored, and `.ok (some st)` for a stored state. -/
def pytest_configure (projectConfig : Option Unit) (tachFlag : Bool)
    (tachBaseOption : Option String) (tachHeadOption : String) (verbose : Bool)
    (defaultBranch : String) (resolveFP : String → String)
    (changedFilesResult : Except Unit (List String)) :
    Except String (Option TachPluginState) :=
  match projectConfig with
  | none => .ok none
  | some _ =>
    let head : Option String :=
      if tachHeadOption = "" then none else some tachHeadOption
    let skip_enabled : Bool := tachFlag || tachBaseOption.isSome || head.isSome
    let base : String := tachBaseOption.getD defaultBranch
    match changedFilesResult with
    | .error _ =>
      if skip_enabled then .error (usageErrorMessage base) else .ok none
    | .ok changed_files =>
      .ok (some
        { handler :=
            { all_affected_modules :=
                changed_files.map (fun changed_file => resolveFP changed_file)
              removed_test_paths := []
              num_removed_items := 0
              tests_ran_to_completion := false }
          skip_enabled := skip_enabled
          verbose := verbose
          base := base
          head := head
          would_skip_paths := [] })

/-! ## Collection-time filtering (`pytest_collect_file`) -/

/-- An opaque collected sub-collector/item, as far as the hook wrapper cares
(it only inspects emptiness of the native result and passes it through). -/
structure Collector where
  cid : Nat
deriving DecidableEq, Repr

/-- `pytest_collect_file` (hook wrapper), after the native collection step has
produced `result`.  Returns the updated plugin state together with the
collection result the wrapper returns to pytest. -/
def pytest_collect_file (oracle : String → Bool) (resolveFP : String → String)
    (state : TachPluginState) (file_path : String) (result : List Collector) :
    TachPluginState × List Collector :=
  if result.isEmpty then
    (state, result)
  else
    let resolved_path := resolveFP file_path
    if state.handler.all_affected_modules.contains resolved_path then
      (state, result)
    else if oracle resolved_path then
      ({ state with
          handler := { state.handler with
            removed_test_paths := state.handler.removed_test_paths ++ [file_path] }
          would_skip_paths := state.would_skip_paths ++ [file_path] },
       result)
    else
      (state, result)

/-! ## Item-level filtering (`pytest_collection_modifyitems`) -/

/-- A collected test item: a unique identity and its file path. -/
structure Item where
  iid : Nat
  path : String
deriving DecidableEq, Repr

/-- The Python loop `for item in items_to_remove: items.remove(item)`: remove, for
each element of the first list in order, its first occurrence from the
second list. -/
def eraseFirsts : List Item → List Item → List Item
  | [], items => items
  | x :: xs, items => eraseFirsts xs (items.erase x)

/-- `pytest_collection_modifyitems`.  Returns the updated state, the final
item list, and `some items_to_remove` when `pytest_deselected` was notified
(`none` when it was not). -/
def pytest_collection_modifyitems (oracle : String → Bool)
    (state : TachPluginState) (items : List Item) :
    TachPluginState × List Item × Option (List Item) :=
  let items_to_remove := items.filter (fun item => oracle item.path)
  let state' := { state with
    handler := { state.handler with num_removed_items := items_to_remove.length } }
  if state'.skip_enabled then
    (state', eraseFirsts items_to_remove items, some items_to_remove)
  else
    (state', items, none)

/-! ## Duration ledger -/

/-- The pytest cache as seen through `_get_pytest_cache`: it may be absent
(`-p no:cacheprovider`), and the `tach/durations` key may be unset. -/
structure PytestCache where
  available : Bool
  durations : Option (List (String × ℚ))
deriving DecidableEq, Repr

/-- Python `dict` assignment `d[k] = v` on an insertion-ordered association
list: overwrite in place if the key exists, else append. -/
def dictSet (d : List (String × ℚ)) (k : String) (v : ℚ) : List (String × ℚ) :=
  if d.any (fun kv => kv.1 == k) then
    d.map (fun kv => if kv.1 == k then (k, v) else kv)
  else
    d ++ [(k, v)]

/-- Python `d.get(k)` / `d[k]` lookup (first, i.e. unique, binding). -/
def dictGet? (d : List (String × ℚ)) (k : String) : Option ℚ :=
  (d.find? (fun kv => kv.1 == k)).map (fun kv => kv.2)

/-- `_get_cached_durations`: missing cache or unset key normalises to `{}`. -/
def _get_cached_durations (cache : PytestCache) : List (String × ℚ) :=
  if cache.available then cache.durations.getD [] else []

/-- `_save_durations`: write the mapping when the cache exists, else no-op. -/
def _save_durations (cache : PytestCache) (durations : List (String × ℚ)) :
    PytestCache :=
  if cache.available then { cache with durations := some durations } else cache

/-- Characters before the first occurrence of the two-character scope
separator `::`; `none` when the separator does not occur. -/
def filePartAux : List Char → Option (List Char)
  | [] => none
  | ':' :: ':' :: _ => some []
  | c :: rest =>
    match filePartAux rest with
    | some acc => some (c :: acc)
    | none => none

/-- The file-part extraction of `_estimate_skipped_duration`: `some` of the
text before the first scope separator when the nodeid contains one (the
guarded `"::" in nodeid` followed by the zeroth piece of the split), `none`
otherwise. -/
def nodeidFilePart (nodeid : String) : Option String :=
  (filePartAux nodeid.data).map fun cs => { data := cs }

/-- The body of the accumulation loop of `_estimate_skipped_duration`: add the
duration of the entry when its file-part resolves into the resolved skipped set. -/
def estimateStep (resolveFP : String → String) (resolved_skipped : List String)
    (total : ℚ) (entry : String × ℚ) : ℚ :=
  match nodeidFilePart entry.1 with
  | some file_part =>
    if resolved_skipped.contains (resolveFP file_part) then total + entry.2
    else total
  | none => total

/-- `_estimate_skipped_duration`.  The cached mapping is read through
`_get_cached_durations`; `skipped_paths` is the `would_skip_paths` set. -/
def _estimate_skipped_duration (resolveFP : String → String)
    (cache : PytestCache) (skipped_paths : List String) : Option ℚ :=
  if skipped_paths.isEmpty then none
  else
    let cached_durations := _get_cached_durations cache
    if cached_durations.isEmpty then none
    else
      let resolved_skipped := skipped_paths.map resolveFP
      let total_duration :=
        cached_durations.foldl (estimateStep resolveFP resolved_skipped) 0
      if 0 < total_duration then some total_duration else none

/-! ## Test reports and duration recording -/

/-- A pytest `TestReport`, restricted to the attributes the plugin reads.
`whenPhase` is the `when` attribute of the report; `fspath = ""` embeds a falsy
`report.fspath`. -/
structure TestReport where
  nodeid : String
  whenPhase : String
  duration : ℚ
  fspath : String
deriving DecidableEq, Repr

/-- `terminalreporter.stats`: category name → list of reports; `.get(c, [])`. -/
def statsGet (stats : List (String × List TestReport)) (category : String) :
    List TestReport :=
  ((stats.find? (fun kv => kv.1 == category)).map (fun kv => kv.2)).getD []

/-- The reports `_record_test_durations` gathers (categories
`"passed"`, `"failed"`, `"error"`, in that order). -/
def allReports (stats : List (String × List TestReport)) : List TestReport :=
  statsGet stats "passed" ++ statsGet stats "failed" ++ statsGet stats "error"

/-- `_record_test_durations`: upsert the `"call"`-phase durations of this
reports of this run into the cached mapping and persist the merged mapping; if
there are no reports at all, leave the cache untouched. -/
def _record_test_durations (stats : List (String × List TestReport))
    (cache : PytestCache) : PytestCache :=
  let all_reports := allReports stats
  if all_reports.isEmpty then cache
  else
    let durations := _get_cached_durations cache
    let durations := all_reports.foldl
      (fun d report =>
        if report.whenPhase = "call" then dictSet d report.nodeid report.duration
        else d)
      durations
    _save_durations cache durations

/-! ## Post-run validation (`pytest_terminal_summary`) -/

/-- The loop of `pytest_terminal_summary` that collects the nodeids of failed
reports whose (truthy) `fspath` resolves into the resolved would-skip set. -/
def failedWouldSkipLoop (resolveFP : String → String)
    (resolved_would_skip : List String) (failed_reports : List TestReport) :
    List String :=
  failed_reports.foldl
    (fun acc report =>
      if report.fspath ≠ "" then
        if resolved_would_skip.contains (resolveFP report.fspath) then
          acc ++ [report.nodeid]
        else acc
      else acc)
    []

/-- `pytest_terminal_summary`.  Returns the state after the hook (it sets
`tests_ran_to_completion`), the lines written to the terminal reporter
(`write_sep` is embedded as its title line), and the pytest cache after
`_record_test_durations`.  The hook writes lines and the duration cache
only; it does not touch the reporter stats, the item list or the exit
status. -/
def pytest_terminal_summary (resolveFP : String → String)
    (stats : List (String × List TestReport)) (cache : PytestCache)
    (state : TachPluginState) :
    TachPluginState × List String × PytestCache :=
  let state' := { state with
    handler := { state.handler with tests_ran_to_completion := true } }
  let warning_lines :=
    if !state.skip_enabled && !state.would_skip_paths.isEmpty then
      let failed_reports := statsGet stats "failed"
      let resolved_would_skip := state.would_skip_paths.map resolveFP
      let failed_would_skip :=
        failedWouldSkipLoop resolveFP resolved_would_skip failed_reports
      if !failed_would_skip.isEmpty then
        ["= Tach Impact Analysis Warning =",
         "[Tach] WARNING: " ++ toString failed_would_skip.length ++
           " test(s) failed that would be skipped by impact analysis!",
         "[Tach] These failures would be missed when using --tach:"] ++
        failed_would_skip.map (fun nodeid => "[Tach]   - " ++ nodeid)
      else []
    else []
  (state', warning_lines, _record_test_durations stats cache)

/-! ## Reporter (`pytest_report_collectionfinish`) -/

/-- `_pluralize`. -/
def _pluralize (word : String) (count : Nat) : String :=
  if count = 1 then word else word ++ "s"

/-- Decimal rendering of a rational with one fractional digit, standing in
for the Python one-decimal fixed-point float format (round-half-even on binary
floats is not modelled; no claim depends on the rendered digits). -/
def fmtFixed1 (q : ℚ) : String :=
  let t : ℤ := round (10 * q)
  toString (t / 10) ++ "." ++ toString (t % 10)

/-- Rendering for the Python zero-decimal fixed-point float format (same
caveat as `fmtFixed1`). -/
def fmtFixed0 (q : ℚ) : String :=
  toString (round q : ℤ)

/-- `_format_duration`. -/
def _format_duration (seconds : ℚ) : String :=
  if seconds < 60 then fmtFixed1 seconds ++ "s"
  else
    let minutes : ℤ := ⌊seconds / 60⌋
    let secs : ℚ := seconds - 60 * minutes
    if minutes < 60 then toString minutes ++ "m " ++ fmtFixed0 secs ++ "s"
    else
      let hours := minutes / 60
      let mins := minutes % 60
      toString hours ++ "h " ++ toString mins ++ "m"

/-- `_format_paths` (the inner helper of `pytest_report_collectionfinish`,
`max_shown = 5`), returned as the list of its lines.  Styling (`_dim`) is the
identity; `verbose` is the captured `state.verbose`. -/
def _format_paths (verbose : Bool) (paths : List String) (marker : String) :
    List String :=
  let show_all := verbose || paths.length ≤ 5
  let shown := if show_all then paths else paths.take 5
  let lines := shown.map (fun p => "[Tach]   " ++ marker ++ " " ++ p)
  if show_all then lines
  else lines ++ ["[Tach]   ... and " ++ toString (paths.length - 5) ++ " more"]

/-- Insertion step for `sortStrings`. -/
def insertSorted (s : String) : List String → List String
  | [] => [s]
  | x :: xs => if s ≤ x then s :: x :: xs else x :: insertSorted s xs

/-- The Python builtin `sorted` over the affected-path strings. -/
def sortStrings : List String → List String
  | [] => []
  | x :: xs => insertSorted x (sortStrings xs)

/-- `_format_changed` (lines of the verbose changed-files section).  The
Python `len` over the set is the list length here (the set is built from
already-resolved path strings). -/
def formatChanged (handler : Handler) : List String :=
  if handler.all_affected_modules.isEmpty then []
  else
    let num := handler.all_affected_modules.length
    ("[Tach] " ++ toString num ++ " " ++ _pluralize "file" num ++ " changed:") ::
      (sortStrings handler.all_affected_modules).map
        (fun p => "[Tach]   + " ++ p)

/-- `pytest_report_collectionfinish`, as the list of lines it returns (the
Python code builds one string and splits it on newlines; paths are assumed
newline-free).  The `if estimated_duration` truthiness test makes both
`None` and `0.0` drop the duration annotation. -/
def pytest_report_collectionfinish (resolveFP : String → String)
    (cache : PytestCache) (state : TachPluginState) : List String :=
  let num_files := state.handler.removed_test_paths.length
  let num_tests := state.handler.num_removed_items
  if num_tests = 0 then []
  else
    let estimated_duration :=
      _estimate_skipped_duration resolveFP cache state.would_skip_paths
    if state.skip_enabled then
      let duration :=
        match estimated_duration with
        | some d => if d = 0 then "" else " (~" ++ _format_duration d ++ " saved)"
        | none => ""
      let changed_section :=
        if state.verbose && !state.handler.all_affected_modules.isEmpty then
          formatChanged state.handler
        else []
      let skipped_paths :=
        _format_paths state.verbose state.handler.removed_test_paths "-"
      changed_section ++
        ["[Tach] Skipped " ++ toString num_tests ++ " " ++
          _pluralize "test" num_tests ++ " (" ++ toString num_files ++ " " ++
          _pluralize "file" num_files ++ ")" ++ duration ++
          " - unaffected by current changes."] ++
        skipped_paths
    else
      let duration :=
        match estimated_duration with
        | some d =>
          if d = 0 then "" else " (~" ++ _format_duration d ++ " could be saved)"
        | none => ""
      let disable_hint :=
        "[Tach] To disable: pytest -p no:tach (https://docs.gauge.sh/usage/commands#using-the-pytest-plugin-directly)"
      let headline :=
        "[Tach] " ++ toString num_tests ++ " " ++ _pluralize "test" num_tests ++
        " in " ++ toString num_files ++ " " ++ _pluralize "file" num_files ++
        " unaffected by changes" ++ duration ++ ". Skip with: pytest --tach"
      if state.verbose then
        let changed_section :=
          if !state.handler.all_affected_modules.isEmpty then
            formatChanged state.handler
          else []
        let would_skip :=
          state.handler.removed_test_paths.map (fun p => "[Tach]   ? " ++ p)
        [headline, disable_hint] ++ changed_section ++
          ["[Tach] Would skip:"] ++ would_skip
      else
        [headline, disable_hint]

/-! ## Concrete run states used by the claim theorems -/

/-- The state `pytest_configure` stores for a run started with the skip flag,
changed files `[a.py]`, and identity resolution. -/
def stChangedA : TachPluginState :=
  { handler :=
      { all_affected_modules := ["a.py"]
        removed_test_paths := []
        num_removed_items := 0
        tests_ran_to_completion := false }
    skip_enabled := true
    verbose := false
    base := "main"
    head := none
    would_skip_paths := [] }

/-- The state `pytest_configure` stores for a run started with the skip flag
and an empty changed-file set. -/
def stNoChanges : TachPluginState :=
  { handler :=
      { all_affected_modules := []
        removed_test_paths := []
        num_removed_items := 0
        tests_ran_to_completion := false }
    skip_enabled := true
    verbose := false
    base := "main"
    head := none
    would_skip_paths := [] }

/-! ## C1 — forced-keep invariant -/

/-- A whole collection phase: fold `pytest_collect_file` over the sequence of
(candidate file, native collection result) calls pytest makes. -/
def runCollect (oracle : String → Bool) (resolveFP : String → String)
    (st : TachPluginState) (calls : List (String × List Collector)) :
    TachPluginState :=
  calls.foldl
    (fun s c => (pytest_collect_file oracle resolveFP s c.1 c.2).1) st

/-- A `pytest_collect_file` call never changes `all_affected_modules`. -/
theorem collect_file_affected_unchanged (oracle : String → Bool)
    (resolveFP : String → String) (state : TachPluginState)
    (file_path : String) (result : List Collector) :
    (pytest_collect_file oracle resolveFP state file_path
        result).1.handler.all_affected_modules =
      state.handler.all_affected_modules := by
  unfold pytest_collect_file
  split
  · rfl
  · dsimp only
    split
    · rfl
    · split
      · rfl
      · rfl

/-- One `pytest_collect_file` call never records a path whose resolved form
is a member of the changed set: the only recording branch is guarded by that
membership being false. -/
theorem collect_file_forced_keep_step (oracle : String → Bool)
    (resolveFP : String → String) (state : TachPluginState)
    (file_path : String) (result : List Collector) (p : String)
    (hmem : state.handler.all_affected_modules.contains (resolveFP p) = true)
    (hnr : p ∉ state.handler.removed_test_paths)
    (hnw : p ∉ state.would_skip_paths) :
    p ∉ (pytest_collect_file oracle resolveFP state file_path
        result).1.handler.removed_test_paths ∧
    p ∉ (pytest_collect_file oracle resolveFP state file_path
        result).1.would_skip_paths := by
  unfold pytest_collect_file
  split
  · exact ⟨hnr, hnw⟩
  · dsimp only
    split
    · exact ⟨hnr, hnw⟩
    · rename_i hguard
      split
      · have hne : p ≠ file_path := by
          intro he
          rw [he] at hmem
          exact hguard hmem
        constructor
        · simp only [List.mem_append, List.mem_singleton]
          rintro (hc | hc)
          · exact hnr hc
          · exact hne hc
        · simp only [List.mem_append, List.mem_singleton]
          rintro (hc | hc)
          · exact hnw hc
          · exact hne hc
      · exact ⟨hnr, hnw⟩

/-- The forced-keep property carries over a whole collection phase. -/
theorem runCollect_forced_keep (oracle : String → Bool)
    (resolveFP : String → String) (p : String) :
    ∀ (calls : List (String × List Collector)) (st : TachPluginState),
      st.handler.all_affected_modules.contains (resolveFP p) = true →
      p ∉ st.handler.removed_test_paths → p ∉ st.would_skip_paths →
      p ∉ (runCollect oracle resolveFP st calls).handler.removed_test_paths ∧
      p ∉ (runCollect oracle resolveFP st calls).would_skip_paths := by
  intro calls
  induction calls with
  | nil => intro st _ hnr hnw; exact ⟨hnr, hnw⟩
  | cons c cs ih =>
    intro st hmem hnr hnw
    simp only [runCollect, List.foldl_cons]
    have hstep := collect_file_forced_keep_step oracle resolveFP st c.1 c.2 p
      hmem hnr hnw
    have hmem' : (pytest_collect_file oracle resolveFP st c.1
        c.2).1.handler.all_affected_modules.contains (resolveFP p) = true := by
      rw [collect_file_affected_unchanged]
      exact hmem
    exact ih _ hmem' hstep.1 hstep.2

/-- C1: the forced-keep invariant.  For every run configured by
`pytest_configure` and every file path whose resolved form is a member of
the stored changed set, no sequence of collection-filter calls ever records
that path into `removed_test_paths` or `would_skip_paths`, whatever the
oracle answers: the membership guard returns the file before the oracle is
consulted. -/
theorem C1_forced_keep_invariant (projectConfig : Option Unit)
    (tachFlag : Bool) (tachBaseOption : Option String)
    (tachHeadOption : String) (verbose : Bool) (defaultBranch : String)
    (resolveFP : String → String)
    (changedFilesResult : Except Unit (List String)) (oracle : String → Bool)
    (calls : List (String × List Collector)) (st0 : TachPluginState)
    (p : String)
    (h : pytest_configure projectConfig tachFlag tachBaseOption tachHeadOption
      verbose defaultBranch resolveFP changedFilesResult = .ok (some st0))
    (hmem : st0.handler.all_affected_modules.contains (resolveFP p) = true) :
    p ∉ (runCollect oracle resolveFP st0 calls).handler.removed_test_paths ∧
    p ∉ (runCollect oracle resolveFP st0 calls).would_skip_paths := by
  have hinit : st0.handler.removed_test_paths = [] ∧
      st0.would_skip_paths = [] := by
    cases projectConfig with
    | none => simp [pytest_configure] at h
    | some u =>
      cases changedFilesResult with
      | error e =>
        simp only [pytest_configure] at h
        split at h <;> (try split at h) <;> simp at h
      | ok files =>
        simp only [pytest_configure, Except.ok.injEq, Option.some.injEq] at h
        subst h
        exact ⟨rfl, rfl⟩
  exact runCollect_forced_keep oracle resolveFP p calls st0 hmem
    (by rw [hinit.1]; exact List.not_mem_nil p)
    (by rw [hinit.2]; exact List.not_mem_nil p)

/-- C1 witness: a run with ChangedFileSet `{a.py}` and an oracle that calls
everything removable; after collecting `a.py` itself and another file,
`a.py` is in neither recorded set. -/
theorem C1_forced_keep_invariant_witness :
    "a.py" ∉ (runCollect (fun _ => true) id stChangedA
      [("a.py", [⟨0⟩]), ("t.py", [⟨1⟩])]).handler.removed_test_paths ∧
    "a.py" ∉ (runCollect (fun _ => true) id stChangedA
      [("a.py", [⟨0⟩]), ("t.py", [⟨1⟩])]).would_skip_paths :=
  C1_forced_keep_invariant (some ()) true none "" false "main" id
    (.ok ["a.py"]) (fun _ => true) [("a.py", [⟨0⟩]), ("t.py", [⟨1⟩])]
    stChangedA "a.py" rfl rfl

/-! ## C2 — which of the two path sets is populated -/

/-- C2 counterexample: the claim says that with `skip_enabled = true` the
set `would_skip_paths` stays empty.  In the run `stNoChanges`
(`skip_enabled = true`), collecting a removable file `b.py` puts `b.py`
into `would_skip_paths` (and into `removed_test_paths` as well): both sets
are populated, not exactly one. -/
theorem C2_both_sets_populated_counterexample :
    pytest_configure (some ()) true none "" false "main" id (Except.ok []) =
      Except.ok (some stNoChanges) ∧
    stNoChanges.skip_enabled = true ∧
    (pytest_collect_file (fun _ => true) id stNoChanges "b.py"
        [⟨0⟩]).1.would_skip_paths = ["b.py"] ∧
    (pytest_collect_file (fun _ => true) id stNoChanges "b.py"
        [⟨0⟩]).1.handler.removed_test_paths = ["b.py"] :=
  ⟨rfl, rfl, rfl, rfl⟩

/-! ## C4 — collection-time drop -/

/-- C4 counterexample: for a candidate file whose native collection result
is non-empty, which is not in the ChangedFileSet, and which the oracle
reports removable, the claim says the returned collection result is empty.
The hook returns the native result `[⟨0⟩]` unchanged. -/
theorem C4_result_not_dropped_counterexample :
    ([Collector.mk 0] ≠ ([] : List Collector)) ∧
    stNoChanges.handler.all_affected_modules.contains (id "t.py") = false ∧
    (pytest_collect_file (fun _ => true) id stNoChanges "t.py" [⟨0⟩]).2 =
      [Collector.mk 0] :=
  ⟨by decide, rfl, rfl⟩

/-- C4 amended: for every candidate file whose native collection result is
non-empty, whose resolved path is not a member of the stored
`all_affected_modules`, and which the oracle reports removable, the hook
records the (unresolved) file path into BOTH `removed_test_paths` and
`would_skip_paths` regardless of `skip_enabled`, and returns the native
collection result unchanged; the actual dropping of items is deferred to
`pytest_collection_modifyitems`. -/
theorem C4_record_and_pass_through (oracle : String → Bool)
    (resolveFP : String → String) (state : TachPluginState)
    (file_path : String) (result : List Collector)
    (hres : result ≠ [])
    (hmem : state.handler.all_affected_modules.contains
      (resolveFP file_path) = false)
    (horacle : oracle (resolveFP file_path) = true) :
    pytest_collect_file oracle resolveFP state file_path result =
      ({ state with
          handler := { state.handler with
            removed_test_paths :=
              state.handler.removed_test_paths ++ [file_path] }
          would_skip_paths := state.would_skip_paths ++ [file_path] },
       result) := by
  unfold pytest_collect_file
  rw [if_neg (by simpa [List.isEmpty_iff] using hres)]
  simp only [hmem, horacle, Bool.false_eq_true, if_false, if_true]

/-- C4 amended, witness: the amended statement at the concrete run of
`C4_result_not_dropped_counterexample`. -/
theorem C4_record_and_pass_through_witness :
    pytest_collect_file (fun _ => true) id stNoChanges "t.py" [⟨0⟩] =
      ({ stNoChanges with
          handler := { stNoChanges.handler with
            removed_test_paths :=
              stNoChanges.handler.removed_test_paths ++ ["t.py"] }
          would_skip_paths := stNoChanges.would_skip_paths ++ ["t.py"] },
       [⟨0⟩]) :=
  C4_record_and_pass_through (fun _ => true) id stNoChanges "t.py" [⟨0⟩]
    (by decide) rfl rfl

/-- One `pytest_collect_file` call keeps `removed_test_paths` and
`would_skip_paths` equal: both receive the same appends. -/
theorem collect_file_preserves_set_eq (oracle : String → Bool)
    (resolveFP : String → String) (st : TachPluginState) (file_path : String)
    (result : List Collector)
    (h : st.handler.removed_test_paths = st.would_skip_paths) :
    (pytest_collect_file oracle resolveFP st file_path
        result).1.handler.removed_test_paths =
      (pytest_collect_file oracle resolveFP st file_path
        result).1.would_skip_paths := by
  unfold pytest_collect_file
  split
  · exact h
  · dsimp only
    split
    · exact h
    · split
      · simpa using h
      · exact h

/-- The two path sets stay equal across any collection phase. -/
theorem runCollect_preserves_set_eq (oracle : String → Bool)
    (resolveFP : String → String)
    (calls : List (String × List Collector)) :
    ∀ st : TachPluginState,
      st.handler.removed_test_paths = st.would_skip_paths →
      (runCollect oracle resolveFP st calls).handler.removed_test_paths =
        (runCollect oracle resolveFP st calls).would_skip_paths := by
  induction calls with
  | nil => intro st h; exact h
  | cons c cs ih =>
    intro st h
    simp only [runCollect, List.foldl_cons]
    exact ih _ (collect_file_preserves_set_eq oracle resolveFP st c.1 c.2 h)

/-- C2 amended: `removed_test_paths` and `would_skip_paths` are populated in
lockstep regardless of `skip_enabled` — after configuration and any sequence
of collection-filter calls the two sets are equal (so whenever any file is
judged removable, both are non-empty, never exactly one). -/
theorem C2_sets_equal_any_run (projectConfig : Option Unit) (tachFlag : Bool)
    (tachBaseOption : Option String) (tachHeadOption : String) (verbose : Bool)
    (defaultBranch : String) (resolveFP : String → String)
    (changedFilesResult : Except Unit (List String)) (oracle : String → Bool)
    (calls : List (String × List Collector)) (st0 : TachPluginState)
    (h : pytest_configure projectConfig tachFlag tachBaseOption tachHeadOption
      verbose defaultBranch resolveFP changedFilesResult = .ok (some st0)) :
    (runCollect oracle resolveFP st0 calls).handler.removed_test_paths =
      (runCollect oracle resolveFP st0 calls).would_skip_paths := by
  apply runCollect_preserves_set_eq
  cases projectConfig with
  | none => simp [pytest_configure] at h
  | some u =>
    cases changedFilesResult with
    | error e =>
      simp only [pytest_configure] at h
      split at h <;> (try split at h) <;> simp at h
    | ok files =>
      simp only [pytest_configure, Except.ok.injEq, Option.some.injEq] at h
      subst h
      rfl

/-- C2 amended, witness: the lockstep equality on a concrete run with two
collected files. -/
theorem C2_sets_equal_any_run_witness :
    (runCollect (fun _ => true) id stNoChanges
        [("b.py", [⟨0⟩]), ("c.py", [⟨1⟩])]).handler.removed_test_paths =
      (runCollect (fun _ => true) id stNoChanges
        [("b.py", [⟨0⟩]), ("c.py", [⟨1⟩])]).would_skip_paths :=
  C2_sets_equal_any_run (some ()) true none "" false "main" id (.ok [])
    (fun _ => true) [("b.py", [⟨0⟩]), ("c.py", [⟨1⟩])] stNoChanges rfl

/-! ## C3 — resolution failure policy -/

/-- The `isSome` of the embedded `--tach-head or None` value, as a Boolean
test on the raw option string. -/
theorem headOpt_isSome (h : String) :
    (if h = "" then (none : Option String) else some h).isSome = !(h == "") := by
  split <;> simp_all

/-- C3: when changed-file resolution raises and no skip-enabling option was
given, `pytest_configure` returns silently with no selection state; when any
enabling option (flag, explicit base, non-empty head) was given, it raises a
usage error whose message contains the literal base name and a remediation
command (`git fetch origin base:base`).  Raising inside `pytest_configure`
aborts the run before any collection hook runs. -/
theorem C3_resolution_failure_policy (tachFlag : Bool)
    (tachBaseOption : Option String) (tachHeadOption : String) (verbose : Bool)
    (defaultBranch : String) (resolveFP : String → String) :
    ((tachFlag || tachBaseOption.isSome || !(tachHeadOption == "")) = false →
      pytest_configure (some ()) tachFlag tachBaseOption tachHeadOption verbose
        defaultBranch resolveFP (.error ()) = .ok none) ∧
    ((tachFlag || tachBaseOption.isSome || !(tachHeadOption == "")) = true →
      pytest_configure (some ()) tachFlag tachBaseOption tachHeadOption verbose
          defaultBranch resolveFP (.error ()) =
        .error (usageErrorMessage (tachBaseOption.getD defaultBranch)) ∧
      (∃ s t : String,
        usageErrorMessage (tachBaseOption.getD defaultBranch) =
          s ++ tachBaseOption.getD defaultBranch ++ t) ∧
      (∃ s t : String,
        usageErrorMessage (tachBaseOption.getD defaultBranch) =
          s ++ ("git fetch origin " ++ tachBaseOption.getD defaultBranch ++
            ":" ++ tachBaseOption.getD defaultBranch) ++ t)) := by
  constructor
  · intro hdis
    simp only [pytest_configure, headOpt_isSome, hdis]
    rfl
  · intro hen
    refine ⟨?_, ?_, ?_⟩
    · simp only [pytest_configure, headOpt_isSome, hen]
      rfl
    · exact ⟨"[tach] Could not determine changed files (base=" ++ squote,
        squote ++ "). " ++ "The base branch may not exist in this checkout. " ++
          ("In CI, try: " ++ ("git fetch origin " ++
            tachBaseOption.getD defaultBranch ++ ":" ++
            tachBaseOption.getD defaultBranch)),
        by simp [usageErrorMessage, String.append_assoc]⟩
    · refine ⟨("[tach] Could not determine changed files (base=" ++ squote ++
        tachBaseOption.getD defaultBranch ++ squote ++ "). ") ++
        "The base branch may not exist in this checkout. " ++ "In CI, try: ",
        "", ?_⟩
      unfold usageErrorMessage
      rw [String.append_empty]
      exact (String.append_assoc _ "In CI, try: " _).symm

/-- C3 witness: an unresolvable explicit base `dev` with no other flag
raises the usage error; no flags at all degrade to a silent `.ok none`. -/
theorem C3_resolution_failure_policy_witness :
    pytest_configure (some ()) false (some "dev") "" false "main" id
        (.error ()) = .error (usageErrorMessage "dev") ∧
    pytest_configure (some ()) false none "" false "main" id (.error ()) =
      .ok none :=
  ⟨((C3_resolution_failure_policy false (some "dev") "" false "main"
      id).2 (by decide)).1,
   (C3_resolution_failure_policy false none "" false "main" id).1 (by decide)⟩

/-! ## C5 — estimate semantics -/

/-- Whether a ledger entry matches the skipped set: its nodeid has a scope
separator and the resolved file-part is in the resolved skipped set. -/
def entryMatches (resolveFP : String → String) (resolved_skipped : List String)
    (entry : String × ℚ) : Bool :=
  match nodeidFilePart entry.1 with
  | some file_part => resolved_skipped.contains (resolveFP file_part)
  | none => false

/-- The sum of the durations of all matching ledger entries (the quantity the
claim calls "the sum of the durations of all matching entries"). -/
def matchingSum (resolveFP : String → String) (cached : List (String × ℚ))
    (skipped_paths : List String) : ℚ :=
  ((cached.filter (entryMatches resolveFP (skipped_paths.map resolveFP))).map
    Prod.snd).sum

/-- The loop body adds the duration exactly on a match. -/
theorem estimateStep_eq (resolveFP : String → String)
    (resolved_skipped : List String) (total : ℚ) (entry : String × ℚ) :
    estimateStep resolveFP resolved_skipped total entry =
      if entryMatches resolveFP resolved_skipped entry then total + entry.2
      else total := by
  unfold estimateStep entryMatches
  rcases nodeidFilePart entry.1 with _ | fp <;> simp

/-- The accumulation loop computes the matching sum. -/
theorem foldl_estimateStep (resolveFP : String → String)
    (resolved_skipped : List String) (l : List (String × ℚ)) :
    ∀ a : ℚ, l.foldl (estimateStep resolveFP resolved_skipped) a =
      a + ((l.filter (entryMatches resolveFP resolved_skipped)).map
        Prod.snd).sum := by
  induction l with
  | nil => intro a; simp
  | cons e t ih =>
    intro a
    simp only [List.foldl_cons, estimateStep_eq, List.filter_cons]
    by_cases hm : entryMatches resolveFP resolved_skipped e
    · simp [hm, ih, add_assoc]
    · simp [hm, ih]

/-- The estimate in closed form: absent on an empty skipped set, otherwise
the matching sum when positive and absent when not. -/
theorem estimate_eq_matchingSum (resolveFP : String → String)
    (cache : PytestCache) (skipped_paths : List String) :
    _estimate_skipped_duration resolveFP cache skipped_paths =
      if skipped_paths.isEmpty then none
      else if 0 < matchingSum resolveFP (_get_cached_durations cache)
        skipped_paths
      then some (matchingSum resolveFP (_get_cached_durations cache)
        skipped_paths)
      else none := by
  by_cases hS : skipped_paths.isEmpty
  · simp [_estimate_skipped_duration, hS]
  · by_cases hC : (_get_cached_durations cache).isEmpty
    · have hnil : _get_cached_durations cache = [] := by
        simpa [List.isEmpty_iff] using hC
      simp [_estimate_skipped_duration, hS, hC, matchingSum, hnil]
    · simp only [_estimate_skipped_duration, hS, hC, Bool.false_eq_true,
        if_false]
      rw [foldl_estimateStep]
      simp [matchingSum]

/-- C5 counterexample: with cache `x_test.py::test_1 ↦ 0` and skipped set
`{x_test.py}` there IS a matching ledger entry, so the claim says the
estimate equals the sum of matching durations (`0`); the code returns
absent (`total > 0` fails). -/
theorem C5_zero_duration_counterexample :
    (_get_cached_durations ⟨true, some [("x_test.py::test_1", 0)]⟩).filter
        (entryMatches id (["x_test.py"].map id)) ≠ [] ∧
    matchingSum id (_get_cached_durations
      ⟨true, some [("x_test.py::test_1", 0)]⟩) ["x_test.py"] = 0 ∧
    _estimate_skipped_duration id ⟨true, some [("x_test.py::test_1", 0)]⟩
      ["x_test.py"] = none := by
  have hfilter : (_get_cached_durations
      ⟨true, some [("x_test.py::test_1", 0)]⟩).filter
        (entryMatches id (["x_test.py"].map id)) =
      [("x_test.py::test_1", (0 : ℚ))] := rfl
  have hms : matchingSum id (_get_cached_durations
      ⟨true, some [("x_test.py::test_1", 0)]⟩) ["x_test.py"] = 0 := by
    unfold matchingSum
    rw [hfilter]; simp
  refine ⟨?_, hms, ?_⟩
  · rw [hfilter]; exact List.cons_ne_nil _ _
  · rw [estimate_eq_matchingSum, hms]
    norm_num

/-- C5 amended: the estimate is absent when the skipped set is empty, and
otherwise equals the sum of the matching cached durations when that sum is
positive and is absent when it is not (in particular when there are no
matching entries, and also when matching durations sum to zero).  The
second conjunct is Scenario C of the spec: cache
`x_test.py::test_1 ↦ 5, y_test.py::test_2 ↦ 7`, skipped `{y_test.py}`
gives exactly `7`. -/
theorem C5_estimate_characterization :
    (∀ (resolveFP : String → String) (cache : PytestCache)
      (skipped_paths : List String),
      _estimate_skipped_duration resolveFP cache skipped_paths =
        if skipped_paths.isEmpty then none
        else if 0 < matchingSum resolveFP (_get_cached_durations cache)
          skipped_paths
        then some (matchingSum resolveFP (_get_cached_durations cache)
          skipped_paths)
        else none) ∧
    _estimate_skipped_duration id
      ⟨true, some [("x_test.py::test_1", 5), ("y_test.py::test_2", 7)]⟩
      ["y_test.py"] = some 7 := by
  refine ⟨fun resolveFP cache skipped_paths =>
    estimate_eq_matchingSum resolveFP cache skipped_paths, ?_⟩
  have hfilter : (_get_cached_durations
      ⟨true, some [("x_test.py::test_1", 5), ("y_test.py::test_2", 7)]⟩).filter
        (entryMatches id (["y_test.py"].map id)) =
      [("y_test.py::test_2", (7 : ℚ))] := rfl
  have hms : matchingSum id (_get_cached_durations
      ⟨true, some [("x_test.py::test_1", 5), ("y_test.py::test_2", 7)]⟩)
      ["y_test.py"] = 7 := by
    unfold matchingSum
    rw [hfilter]; simp
  rw [estimate_eq_matchingSum, hms]
  norm_num

/-! ## C6 — duration-ledger merge -/

/-- Lookup of a different key is unchanged by a dict upsert. -/
theorem dictGet?_dictSet_ne (d : List (String × ℚ)) (k k' : String) (v : ℚ)
    (h : k ≠ k') : dictGet? (dictSet d k' v) k = dictGet? d k := by
  unfold dictSet dictGet?
  split
  · rw [List.find?_map]
    have hcomp : ((fun kv : String × ℚ => kv.1 == k) ∘
        fun kv => if kv.1 == k' then (k', v) else kv) =
        fun kv : String × ℚ => kv.1 == k := by
      funext kv
      by_cases hkv : kv.1 = k'
      · simp [Function.comp, hkv, Ne.symm h]
      · simp [Function.comp, hkv]
    rw [hcomp]
    cases hf : List.find? (fun kv : String × ℚ => kv.1 == k) d with
    | none => rfl
    | some a =>
      have ha := List.find?_some hf
      have ha' : a.1 = k := by simpa using ha
      have hane : a.1 ≠ k' := by rw [ha']; exact h
      simp [hane]
  · rw [List.find?_append]
    have hb : (k' == k) = false := by simp [Ne.symm h]
    have hsingle :
        List.find? (fun kv : String × ℚ => kv.1 == k) [(k', v)] = none := by
      simp [List.find?_cons, hb]
    rw [hsingle]
    cases hf : List.find? (fun kv : String × ℚ => kv.1 == k) d <;> simp

/-- The recording fold leaves lookups of non-executed identifiers alone. -/
theorem record_foldl_preserves (k : String) :
    ∀ (reports : List TestReport) (d : List (String × ℚ)),
      (∀ r ∈ reports, r.whenPhase = "call" → r.nodeid ≠ k) →
      dictGet? (reports.foldl
        (fun d report =>
          if report.whenPhase = "call" then
            dictSet d report.nodeid report.duration
          else d) d) k = dictGet? d k := by
  intro reports
  induction reports with
  | nil => intro d _; rfl
  | cons r t ih =>
    intro d hall
    simp only [List.foldl_cons]
    by_cases hw : r.whenPhase = "call"
    · rw [if_pos hw, ih _ fun x hx hc => hall x (List.mem_cons_of_mem _ hx) hc,
        dictGet?_dictSet_ne]
      exact fun he => hall r (List.mem_cons_self _ _) hw he.symm
    · rw [if_neg hw]
      exact ih _ fun x hx hc => hall x (List.mem_cons_of_mem _ hx) hc

/-- C6: recording merges rather than replaces — after
`_record_test_durations`, the persisted mapping gives, unchanged, the value
of every test identifier that was not among the call-phase reports of this
run. -/
theorem C6_record_durations_merges (stats : List (String × List TestReport))
    (cache : PytestCache) (k : String) (hav : cache.available = true)
    (hk : ∀ r ∈ allReports stats, r.whenPhase = "call" → r.nodeid ≠ k) :
    dictGet? (_get_cached_durations (_record_test_durations stats cache)) k =
      dictGet? (_get_cached_durations cache) k := by
  unfold _record_test_durations
  by_cases hemp : (allReports stats).isEmpty
  · rw [if_pos hemp]
  · rw [if_neg hemp]
    dsimp only
    have hsave : ∀ d, _get_cached_durations (_save_durations cache d) = d := by
      intro d; simp [_get_cached_durations, _save_durations, hav]
    rw [hsave]
    exact record_foldl_preserves k (allReports stats) _ hk

/-- C6 witness: one executed call-phase test `a.py::t1` leaves the old entry
`old::t ↦ 9` intact. -/
theorem C6_record_durations_merges_witness :
    dictGet? (_get_cached_durations (_record_test_durations
        [("passed", [⟨"a.py::t1", "call", 3, "a.py"⟩])]
        ⟨true, some [("old::t", 9)]⟩)) "old::t" =
      dictGet? (_get_cached_durations ⟨true, some [("old::t", 9)]⟩) "old::t" :=
  C6_record_durations_merges [("passed", [⟨"a.py::t1", "call", 3, "a.py"⟩])]
    ⟨true, some [("old::t", 9)]⟩ "old::t" rfl (by decide)

/-! ## C7 — item-level filtering -/

/-- Erasing elements that all satisfy `p` walks past a head that does not. -/
theorem eraseFirsts_cons_of_not (p : Item → Bool) :
    ∀ (xs : List Item), (∀ x ∈ xs, p x = true) →
      ∀ (a : Item), p a = false → ∀ (t : List Item),
        eraseFirsts xs (a :: t) = a :: eraseFirsts xs t := by
  intro xs
  induction xs with
  | nil => intro _ a _ t; rfl
  | cons x xs ih =>
    intro hall a hpa t
    have hpx : p x = true := hall x (List.mem_cons_self _ _)
    have hax : ¬(a = x) := fun he => by rw [he, hpx] at hpa; cases hpa
    rw [eraseFirsts, List.erase_cons_tail (by simpa using hax),
      ih (fun y hy => hall y (List.mem_cons_of_mem _ hy)) a hpa (t.erase x)]
    rfl

/-- The Python removal loop over `items_to_remove = filter p items` leaves
exactly the items not satisfying `p`, in order. -/
theorem eraseFirsts_filter (p : Item → Bool) :
    ∀ l : List Item, eraseFirsts (l.filter p) l =
      l.filter fun x => !(p x) := by
  intro l
  induction l with
  | nil => rfl
  | cons a t ih =>
    by_cases hpa : p a = true
    · rw [List.filter_cons, if_pos hpa, eraseFirsts, List.erase_cons_head, ih,
        List.filter_cons]
      simp [hpa]
    · have hpa' : p a = false := by simpa using hpa
      rw [List.filter_cons, if_neg (by simp [hpa']),
        eraseFirsts_cons_of_not p (t.filter p)
          (fun y hy => (List.mem_filter.mp hy).2) a hpa' t, ih,
        List.filter_cons]
      simp [hpa']

/-- C7: `pytest_collection_modifyitems` always stores the number of
removable items into `num_removed_items`, and deselects them (final item
list keeps exactly the non-removable items, `pytest_deselected` is notified
with the removed ones) precisely when `skip_enabled`; with skipping
disabled the item list is returned unchanged and no deselection happens. -/
theorem C7_item_filtering (oracle : String → Bool) (state : TachPluginState)
    (items : List Item) :
    pytest_collection_modifyitems oracle state items =
      ({ state with handler := { state.handler with
          num_removed_items :=
            (items.filter fun item => oracle item.path).length } },
       if state.skip_enabled then
         items.filter fun item => !(oracle item.path)
       else items,
       if state.skip_enabled then
         some (items.filter fun item => oracle item.path)
       else none) := by
  unfold pytest_collection_modifyitems
  by_cases hs : state.skip_enabled
  · simp [hs, eraseFirsts_filter]
  · simp [hs]

/-! ## C8 — post-run validation safety net -/

/-- The identifiers of failed reports whose (truthy) file path resolves into
the would-skip set: the quantity the claim calls "exactly the identifiers of
those failed tests". -/
def failedWouldSkip (resolveFP : String → String)
    (stats : List (String × List TestReport)) (state : TachPluginState) :
    List String :=
  ((statsGet stats "failed").filter fun report =>
      (report.fspath != "") &&
        (state.would_skip_paths.map resolveFP).contains
          (resolveFP report.fspath)).map fun report => report.nodeid

/-- The collection loop, with an arbitrary accumulator. -/
theorem failedWouldSkipLoop_go (resolveFP : String → String)
    (resolved_would_skip : List String) :
    ∀ (reports : List TestReport) (acc : List String),
      reports.foldl
        (fun acc report =>
          if report.fspath ≠ "" then
            if resolved_would_skip.contains (resolveFP report.fspath) then
              acc ++ [report.nodeid]
            else acc
          else acc) acc =
      acc ++ ((reports.filter fun report =>
        (report.fspath != "") &&
          resolved_would_skip.contains (resolveFP report.fspath)).map
            fun report => report.nodeid) := by
  intro reports
  induction reports with
  | nil => intro acc; simp
  | cons r t ih =>
    intro acc
    rw [List.foldl_cons, List.filter_cons]
    by_cases h1 : r.fspath = ""
    · rw [if_neg (not_not_intro h1), ih]
      simp [h1]
    · rw [if_pos h1]
      by_cases h2 : resolved_would_skip.contains (resolveFP r.fspath) = true
      · have h2' : resolveFP r.fspath ∈ resolved_would_skip := by
          simpa using h2
        rw [if_pos h2, ih]
        simp [h1, h2']
      · have h2' : ¬(resolveFP r.fspath ∈ resolved_would_skip) := by
          simpa using h2
        rw [if_neg h2, ih]
        simp [h1, h2']

/-- The collection loop computes `failedWouldSkip`. -/
theorem failedWouldSkipLoop_eq (resolveFP : String → String)
    (stats : List (String × List TestReport)) (state : TachPluginState) :
    failedWouldSkipLoop resolveFP (state.would_skip_paths.map resolveFP)
      (statsGet stats "failed") = failedWouldSkip resolveFP stats state := by
  unfold failedWouldSkipLoop failedWouldSkip
  rw [failedWouldSkipLoop_go]
  simp

/-- C8: the terminal summary only flips `tests_ran_to_completion` on the
state (purely observational; it writes lines and the duration cache, it
does not alter stats, items or exit status).  With skipping enabled no
warning is written; with skipping disabled and a non-empty would-skip set
it writes the warning section listing exactly the identifiers of the
failed would-skip tests whenever there are any, and nothing otherwise. -/
theorem C8_validation_warning (resolveFP : String → String)
    (stats : List (String × List TestReport)) (cache : PytestCache)
    (state : TachPluginState) :
    ((pytest_terminal_summary resolveFP stats cache state).1 =
      { state with handler :=
          { state.handler with tests_ran_to_completion := true } }) ∧
    (state.skip_enabled = true →
      (pytest_terminal_summary resolveFP stats cache state).2.1 = []) ∧
    (state.skip_enabled = false →
      failedWouldSkip resolveFP stats state = [] →
      (pytest_terminal_summary resolveFP stats cache state).2.1 = []) ∧
    (state.skip_enabled = false → state.would_skip_paths ≠ [] →
      failedWouldSkip resolveFP stats state ≠ [] →
      (pytest_terminal_summary resolveFP stats cache state).2.1 =
        ["= Tach Impact Analysis Warning =",
         "[Tach] WARNING: " ++
           toString (failedWouldSkip resolveFP stats state).length ++
           " test(s) failed that would be skipped by impact analysis!",
         "[Tach] These failures would be missed when using --tach:"] ++
        (failedWouldSkip resolveFP stats state).map
          fun nodeid => "[Tach]   - " ++ nodeid) := by
  refine ⟨rfl, ?_, ?_, ?_⟩
  · intro hs
    simp [pytest_terminal_summary, hs]
  · intro hs hfw
    simp [pytest_terminal_summary, hs, failedWouldSkipLoop_eq, hfw]
  · intro hs hws hfw
    simp [pytest_terminal_summary, hs, failedWouldSkipLoop_eq, hws, hfw,
      List.isEmpty_iff]

/-- The dry-run state (skipping disabled) with one would-skip path. -/
def stDryRunWS : TachPluginState :=
  { handler :=
      { all_affected_modules := []
        removed_test_paths := ["t.py"]
        num_removed_items := 1
        tests_ran_to_completion := false }
    skip_enabled := false
    verbose := false
    base := "main"
    head := none
    would_skip_paths := ["t.py"] }

/-- C8 witness: skipping disabled, the failed test `t.py::tf` lies in the
would-skip set, so the warning section lists exactly it. -/
theorem C8_validation_warning_witness :
    (pytest_terminal_summary id
        [("failed", [⟨"t.py::tf", "call", 1, "t.py"⟩])] ⟨true, none⟩
        stDryRunWS).2.1 =
      ["= Tach Impact Analysis Warning =",
       "[Tach] WARNING: " ++
         toString (failedWouldSkip id
           [("failed", [⟨"t.py::tf", "call", 1, "t.py"⟩])] stDryRunWS).length ++
         " test(s) failed that would be skipped by impact analysis!",
       "[Tach] These failures would be missed when using --tach:"] ++
      (failedWouldSkip id
        [("failed", [⟨"t.py::tf", "call", 1, "t.py"⟩])] stDryRunWS).map
          (fun nodeid => "[Tach]   - " ++ nodeid) :=
  (C8_validation_warning id [("failed", [⟨"t.py::tf", "call", 1, "t.py"⟩])]
    ⟨true, none⟩ stDryRunWS).2.2.2 rfl (by decide) (by decide)

/-! ## C9 — reporter truncation -/

/-- C9: with verbose off and more than five paths, `_format_paths` (the
path-list formatter of `pytest_report_collectionfinish`) emits exactly the
first five path lines followed by one elision line naming the remaining
count; with verbose on or at most five paths, it emits every path and no
elision line. -/
theorem C9_format_paths_truncation (verbose : Bool) (paths : List String)
    (marker : String) :
    (verbose = false → 5 < paths.length →
      _format_paths verbose paths marker =
        (paths.take 5).map (fun p => "[Tach]   " ++ marker ++ " " ++ p) ++
        ["[Tach]   ... and " ++ toString (paths.length - 5) ++ " more"]) ∧
    (verbose = true ∨ paths.length ≤ 5 →
      _format_paths verbose paths marker =
        paths.map fun p => "[Tach]   " ++ marker ++ " " ++ p) := by
  constructor
  · intro hv hlen
    have hsa : (verbose || decide (paths.length ≤ 5)) = false := by
      simp [hv]; omega
    simp [_format_paths, hsa]
  · intro hor
    rcases hor with hv | hlen
    · simp [_format_paths, hv]
    · simp [_format_paths, hlen]

/-- C9 witness: seven paths, verbose off — five lines plus the elision line
naming the two remaining; and verbose on — all seven lines. -/
theorem C9_format_paths_truncation_witness :
    _format_paths false ["a", "b", "c", "d", "e", "f", "g"] "-" =
      ((["a", "b", "c", "d", "e", "f", "g"] : List String).take 5).map
        (fun p => "[Tach]   " ++ "-" ++ " " ++ p) ++
      ["[Tach]   ... and " ++
        toString ((["a", "b", "c", "d", "e", "f", "g"] : List String).length
          - 5) ++ " more"] ∧
    _format_paths true ["a", "b", "c", "d", "e", "f", "g"] "-" =
      (["a", "b", "c", "d", "e", "f", "g"] : List String).map
        fun p => "[Tach]   " ++ "-" ++ " " ++ p :=
  ⟨(C9_format_paths_truncation false ["a", "b", "c", "d", "e", "f", "g"]
      "-").1 rfl (by decide),
   (C9_format_paths_truncation true ["a", "b", "c", "d", "e", "f", "g"]
      "-").2 (Or.inl rfl)⟩

/-! ## C10 — report gated on the item count -/

/-- C10: whenever the stored removed-item count is zero the
collection-finish report is the empty list of lines, regardless of the
recorded removed/would-skip file paths. -/
theorem C10_report_empty_when_no_removed_items (resolveFP : String → String)
    (cache : PytestCache) (state : TachPluginState)
    (h : state.handler.num_removed_items = 0) :
    pytest_report_collectionfinish resolveFP cache state = [] := by
  unfold pytest_report_collectionfinish
  simp [h]

/-- A state with recorded paths but a zero removed-item count. -/
def stPathsNoItems : TachPluginState :=
  { handler :=
      { all_affected_modules := []
        removed_test_paths := ["p.py"]
        num_removed_items := 0
        tests_ran_to_completion := false }
    skip_enabled := true
    verbose := false
    base := "main"
    head := none
    would_skip_paths := ["p.py"] }

/-- C10 witness: non-empty path sets, zero item count, empty report. -/
theorem C10_report_empty_witness :
    stPathsNoItems.handler.removed_test_paths ≠ [] ∧
    stPathsNoItems.would_skip_paths ≠ [] ∧
    pytest_report_collectionfinish id ⟨true, none⟩ stPathsNoItems = [] :=
  ⟨by decide, by decide,
   C10_report_empty_when_no_removed_items id ⟨true, none⟩ stPathsNoItems rfl⟩

end TachPlugin
